import Mathlib

/-!
Verification of the task core of golint-fixer/inago (package task,
src/task/task_service.go) against its natural-language specification.

The service code is embedded shallowly: the Storage backend becomes an
explicit association list passed through every operation, the in-place
mutation of a Task record becomes a returned record value, the goroutine
spawned by Create becomes an explicit second step, and the select race
inside WaitForFinalStatus is resolved by an event schedule. A Boolean
flag models whether the backend write performed by Storage.Set fails,
since that outcome is decided by the environment.
-/

namespace Inago

/-- Modelled from the spec: ActiveStatus is enumerated as Started and
Stopped; the constants StatusStarted and StatusStopped are defined by
repository code outside src/. -/
inductive ActiveStatus where
  | Started
  | Stopped
deriving DecidableEq, Repr

/-- Modelled from the spec: FinalStatus is enumerated as empty,
Succeeded and Failed; the constants StatusSucceeded and StatusFailed
are defined by repository code outside src/, and the empty string used
by Create corresponds to the empty case. -/
inductive FinalStatus where
  | empty
  | Succeeded
  | Failed
deriving DecidableEq, Repr

/-- The Task record of src/task/task_service.go: ActiveStatus, the
message of an error occurred during execution, FinalStatus, and the
identifier used as the Storage key. -/
structure Task where
  ActiveStatus : ActiveStatus
  Error : String
  FinalStatus : FinalStatus
  ID : String
deriving DecidableEq, Repr

/-- Modelled from the spec: the error kinds surfaced by the Storage
collaborator, whose implementation is repository code outside src/:
NotFound when Get finds no task under the ID, StorageError when the
backend write fails. -/
inductive Err where
  | NotFound
  | StorageError
deriving DecidableEq, Repr

/-- Modelled from the spec: the Storage state, a keyed map from task ID
to Task; represented as an association list in which the most recent
write for a key comes first. -/
abbrev Store := List (String × Task)

/-- Modelled from the spec: Storage.Get(id) returns the most recently
persisted snapshot for the ID and fails with NotFound if no such ID has
ever been persisted. -/
def storageGet (s : Store) (id : String) : Except Err Task :=
  match s.lookup id with
  | some t => Except.ok t
  | none => Except.error Err.NotFound

/-- Modelled from the spec: Storage.Set(task) writes the full record
keyed by task.ID and fails with a backend-specific error on write
failure; the flag resolves the backend outcome. -/
def storageSet (fail : Bool) (s : Store) (t : Task) : Except Err Store :=
  if fail then Except.error Err.StorageError else Except.ok ((t.ID, t) :: s)

/-- Embeds taskService.PersistState: delegates to Storage.Set and
surfaces its error (maskAny only wraps the error and is the identity
here). -/
def PersistState (fail : Bool) (s : Store) (t : Task) : Except Err Store :=
  match storageSet fail s t with
  | Except.error e => Except.error e
  | Except.ok s1 => Except.ok s1

/-- Embeds taskService.FetchState: delegates to Storage.Get and
surfaces its error. -/
def FetchState (s : Store) (id : String) : Except Err Task :=
  match storageGet s id with
  | Except.error e => Except.error e
  | Except.ok t => Except.ok t

/-- The observable outcome of a mark operation: the in-memory record
after its in-place mutation, the Storage state after the call, and the
returned pair (task, error). -/
structure MarkOut where
  record : Task
  store : Store
  ret : Option Task
  err : Option Err
deriving DecidableEq, Repr

/-- Embeds taskService.MarkAsFailedWithError: mutates the record to
ActiveStatus Stopped, Error set to the message of the given error, and
FinalStatus Failed, then persists it; on persistence failure it returns
(nil, error), otherwise (record, nil). -/
def MarkAsFailedWithError (fail : Bool) (s : Store) (t : Task) (msg : String) : MarkOut :=
  let t1 : Task := { t with ActiveStatus := ActiveStatus.Stopped, Error := msg, FinalStatus := FinalStatus.Failed }
  match PersistState fail s t1 with
  | Except.error e => ⟨t1, s, none, some e⟩
  | Except.ok s1 => ⟨t1, s1, some t1, none⟩

/-- Embeds taskService.MarkAsSucceeded: mutates the record to
ActiveStatus Stopped and FinalStatus Succeeded (the Error field is left
untouched), then persists it; on persistence failure it returns
(nil, error), otherwise (record, nil). -/
def MarkAsSucceeded (fail : Bool) (s : Store) (t : Task) : MarkOut :=
  let t1 : Task := { t with ActiveStatus := ActiveStatus.Stopped, FinalStatus := FinalStatus.Succeeded }
  match PersistState fail s t1 with
  | Except.error e => ⟨t1, s, none, some e⟩
  | Except.ok s1 => ⟨t1, s1, some t1, none⟩

/-- Embeds the Task literal allocated by taskService.Create: the fresh
uuid.NewV4 value is modelled as the id parameter, ActiveStatus is
Started, FinalStatus is the empty value, and the unset Error field is
the empty string (the Go zero value). -/
def newTask (id : String) : Task :=
  { ID := id, ActiveStatus := ActiveStatus.Started, FinalStatus := FinalStatus.empty, Error := "" }

/-- The observable outcome of the synchronous part of Create: the
Storage state after the initial persistence attempt and the returned
pair (task, error). -/
structure CreateOut where
  store : Store
  ret : Option Task
  err : Option Err
deriving DecidableEq, Repr

/-- Embeds the synchronous part of taskService.Create: allocates the
new record, persists it, and returns (nil, error) if the write fails,
otherwise (record, nil); the spawned goroutine is embedded separately
as asyncUnit. -/
def Create (fail : Bool) (s : Store) (id : String) : CreateOut :=
  let t := newTask id
  match PersistState fail s t with
  | Except.error e => ⟨s, none, some e⟩
  | Except.ok s1 => ⟨s1, some t, none⟩

/-- Embeds the goroutine body spawned by taskService.Create: it runs
the action and then performs exactly one terminal mark on the captured
record — MarkAsFailedWithError with the message of the action error
when the action failed, MarkAsSucceeded otherwise; a persistence error
inside the unit is only logged, leaving Storage unchanged. -/
def asyncUnit (fail : Bool) (s : Store) (t : Task) (actionErr : Option String) : MarkOut :=
  match actionErr with
  | some msg => MarkAsFailedWithError fail s t msg
  | none => MarkAsSucceeded fail s t

/-- Create followed by the spawned unit running to completion: the
interleaving in which the terminal write of the goroutine reaches
Storage after the initial persistence attempt of Create. -/
def createThenAsync (failInit failMark : Bool) (s : Store) (id : String)
    (actionErr : Option String) : CreateOut × MarkOut :=
  let c := Create failInit s id
  (c, asyncUnit failMark c.store (newTask id) actionErr)

/-- Modelled from the spec: HasFinalStatus, defined by repository code
outside src/, holds exactly when the task has reached a terminal
status, i.e. its FinalStatus is not empty. -/
def HasFinalStatus (t : Task) : Bool :=
  match t.FinalStatus with
  | FinalStatus.empty => false
  | _ => true

/-- One iteration of the select inside WaitForFinalStatus is won either
by the closer channel or by the timer. -/
inductive WaitEvent where
  | closer
  | timer
deriving DecidableEq, Repr

/-- Embeds taskService.WaitForFinalStatus: the select race of each loop
iteration is resolved by the event schedule, and the fetch performed at
tick k observes the Storage snapshot given by fetches k. The closer
winning returns (nil, nil); a failed fetch returns (nil, error); a
fetched task with a final status is returned with a nil error;
otherwise the loop continues. The result is none when the schedule is
exhausted with the loop still running. -/
def WaitForFinalStatus (fetches : Nat → Except Err Task) :
    List WaitEvent → Nat → Option (Option Task × Option Err)
  | [], _ => none
  | WaitEvent.closer :: _, _ => some (none, none)
  | WaitEvent.timer :: rest, k =>
    match fetches k with
    | Except.error e => some (none, some e)
    | Except.ok t =>
      if HasFinalStatus t then some (some t, none)
      else WaitForFinalStatus fetches rest (k + 1)

/-- The invariant of section 3 of the spec: a task with a non-empty
FinalStatus has ActiveStatus Stopped. -/
def statusInv (t : Task) : Prop :=
  t.FinalStatus ≠ FinalStatus.empty → t.ActiveStatus = ActiveStatus.Stopped

/-- The status invariant holding of every task persisted in the
Storage state. -/
def storeInv (s : Store) : Prop :=
  ∀ p ∈ s, statusInv p.2

/-- The Error-field invariant of section 3 of the spec: Error is empty
unless FinalStatus is Failed. -/
def errorInv (t : Task) : Prop :=
  t.FinalStatus ≠ FinalStatus.Failed → t.Error = ""

/-- Claim C1: WaitForFinalStatus has exactly three outcomes — the
closer winning an iteration returns (nil, nil); a fetch returning a
task with a non-empty FinalStatus returns (task, nil); a failed fetch
returns (nil, error) immediately; and whenever the closer has already
fired when the call is made (so it wins the first iteration), the
result is (nil, nil) regardless of the task state. -/
theorem C1_wait_outcomes (fetches : Nat → Except Err Task) (evs : List WaitEvent) (k : Nat) :
    (∀ r, WaitForFinalStatus fetches evs k = some r →
      r = (none, none) ∨
      (∃ t, r = (some t, none) ∧ HasFinalStatus t = true) ∨
      (∃ e, r = (none, some e))) ∧
    (∀ rest, WaitForFinalStatus fetches (WaitEvent.closer :: rest) k = some (none, none)) ∧
    (∀ e rest, fetches k = Except.error e →
      WaitForFinalStatus fetches (WaitEvent.timer :: rest) k = some (none, some e)) ∧
    (∀ t rest, fetches k = Except.ok t → HasFinalStatus t = true →
      WaitForFinalStatus fetches (WaitEvent.timer :: rest) k = some (some t, none)) := by
  refine ⟨?_, ?_, ?_, ?_⟩
  · intro r
    induction evs generalizing k with
    | nil => intro h; simp [WaitForFinalStatus] at h
    | cons ev rest ih =>
      intro h
      cases ev with
      | closer =>
        simp [WaitForFinalStatus] at h
        left; exact h.symm
      | timer =>
        rw [WaitForFinalStatus] at h
        cases hf : fetches k with
        | error e =>
          rw [hf] at h
          simp at h
          right; right; exact ⟨e, h.symm⟩
        | ok t =>
          rw [hf] at h
          by_cases ht : HasFinalStatus t = true
          · simp [ht] at h
            right; left; exact ⟨t, h.symm, ht⟩
          · simp [ht] at h
            exact ih (k + 1) h
  · intro rest; rfl
  · intro e rest hf; rw [WaitForFinalStatus, hf]
  · intro t rest hf ht; rw [WaitForFinalStatus, hf]; simp [ht]

/-- Witness for C1 at concrete inputs: a schedule whose first event is
the closer yields (nil, nil), and a first fetch failing with NotFound
yields (nil, NotFound). -/
theorem C1_wait_outcomes_witness :
    WaitForFinalStatus (fun _ => Except.error Err.NotFound) [WaitEvent.closer] 0 =
      some (none, none) ∧
    WaitForFinalStatus (fun _ => Except.error Err.NotFound) [WaitEvent.timer] 0 =
      some (none, some Err.NotFound) :=
  ⟨(C1_wait_outcomes (fun _ => Except.error Err.NotFound) [] 0).2.1 [],
   (C1_wait_outcomes (fun _ => Except.error Err.NotFound) [] 0).2.2.1 Err.NotFound [] rfl⟩

/-- Claim C4: Create allocates a Task whose ID is the freshly generated
uuid (modelled as the id parameter), with ActiveStatus Started and
FinalStatus empty, persists it to Storage, and returns the record when
the write succeeds or the persistence error when it fails; distinct
generated ids give distinct tasks. -/
theorem C4_create (s : Store) (id id2 : String) :
    (newTask id).ID = id ∧
    (newTask id).ActiveStatus = ActiveStatus.Started ∧
    (newTask id).FinalStatus = FinalStatus.empty ∧
    (Create false s id).ret = some (newTask id) ∧
    (Create false s id).err = none ∧
    storageGet (Create false s id).store id = Except.ok (newTask id) ∧
    (Create true s id).ret = none ∧
    (Create true s id).err = some Err.StorageError ∧
    (id ≠ id2 → newTask id ≠ newTask id2) := by
  refine ⟨rfl, rfl, rfl, rfl, rfl, ?_, rfl, rfl, ?_⟩
  · simp [Create, PersistState, storageSet, storageGet, newTask, List.lookup]
  · intro h hc
    exact h (congrArg Task.ID hc)

/-- Witness for C4 at concrete inputs: two distinct ids give distinct
created tasks. -/
theorem C4_create_witness : newTask "a" ≠ newTask "b" :=
  (C4_create [] "a" "b").2.2.2.2.2.2.2.2 (by decide)

/-- Claim C5: MarkAsFailedWithError sets ActiveStatus Stopped,
FinalStatus Failed and Error to the message of the given error on the
record, persists it under its ID, and returns the persisted record, or
the persistence error when the write fails. -/
theorem C5_mark_failed (s : Store) (t : Task) (msg : String) :
    (MarkAsFailedWithError false s t msg).record =
      { t with ActiveStatus := ActiveStatus.Stopped, Error := msg, FinalStatus := FinalStatus.Failed } ∧
    (MarkAsFailedWithError false s t msg).ret = some (MarkAsFailedWithError false s t msg).record ∧
    (MarkAsFailedWithError false s t msg).err = none ∧
    storageGet (MarkAsFailedWithError false s t msg).store t.ID =
      Except.ok (MarkAsFailedWithError false s t msg).record ∧
    (MarkAsFailedWithError true s t msg).ret = none ∧
    (MarkAsFailedWithError true s t msg).err = some Err.StorageError := by
  refine ⟨rfl, rfl, rfl, ?_, rfl, rfl⟩
  simp [MarkAsFailedWithError, PersistState, storageSet, storageGet, List.lookup]

/-- Claim C6: MarkAsSucceeded sets ActiveStatus Stopped and FinalStatus
Succeeded on the given record, persists it under its ID, and returns
the persisted record, or the persistence error when the write fails. -/
theorem C6_mark_succeeded (s : Store) (t : Task) :
    (MarkAsSucceeded false s t).record =
      { t with ActiveStatus := ActiveStatus.Stopped, FinalStatus := FinalStatus.Succeeded } ∧
    (MarkAsSucceeded false s t).ret = some (MarkAsSucceeded false s t).record ∧
    (MarkAsSucceeded false s t).err = none ∧
    storageGet (MarkAsSucceeded false s t).store t.ID =
      Except.ok (MarkAsSucceeded false s t).record ∧
    (MarkAsSucceeded true s t).ret = none ∧
    (MarkAsSucceeded true s t).err = some Err.StorageError := by
  refine ⟨rfl, rfl, rfl, ?_, rfl, rfl⟩
  simp [MarkAsSucceeded, PersistState, storageSet, storageGet, List.lookup]

/-- Counterexample to claim C2 as stated: MarkAsSucceeded is a service
operation reachable from the service interface, and applying it to the
task produced by MarkAsFailedWithError — a task whose FinalStatus is
Failed — yields a task whose FinalStatus is Succeeded, so a sequence of
service operations does transition a task from Failed to Succeeded. -/
theorem C2_failed_to_succeeded_counterexample :
    (MarkAsFailedWithError false [] (newTask "a") "boom").record.FinalStatus =
      FinalStatus.Failed ∧
    (MarkAsSucceeded false []
      (MarkAsFailedWithError false [] (newTask "a") "boom").record).record.FinalStatus =
      FinalStatus.Succeeded := ⟨rfl, rfl⟩

/-- Claim C2 (amended): within the lifecycle the service itself drives
— Create allocates the record with empty FinalStatus and the spawned
unit performs exactly one terminal mark — FinalStatus transitions
exactly once, from empty to the terminal value determined by the action
outcome, and the unit performs no further transition; the exposed mark
operations themselves do not guard an already-terminal record. -/
theorem C2_lifecycle_final_status (id : String) (fail : Bool) (s : Store)
    (actionErr : Option String) :
    (newTask id).FinalStatus = FinalStatus.empty ∧
    ((asyncUnit fail s (newTask id) actionErr).record.FinalStatus = FinalStatus.Succeeded ∨
     (asyncUnit fail s (newTask id) actionErr).record.FinalStatus = FinalStatus.Failed) ∧
    (actionErr = none →
      (asyncUnit fail s (newTask id) actionErr).record.FinalStatus = FinalStatus.Succeeded) ∧
    (∀ msg, actionErr = some msg →
      (asyncUnit fail s (newTask id) actionErr).record.FinalStatus = FinalStatus.Failed) := by
  refine ⟨rfl, ?_, ?_, ?_⟩
  · cases actionErr <;> cases fail <;>
      simp [asyncUnit, MarkAsSucceeded, MarkAsFailedWithError, PersistState, storageSet]
  · intro h; subst h; cases fail <;> rfl
  · intro msg h; subst h; cases fail <;> rfl

/-- Witness for the amended C2 at concrete inputs: a successful action
drives the created task to Succeeded and a failing action to Failed. -/
theorem C2_lifecycle_final_status_witness :
    (asyncUnit false [] (newTask "a") none).record.FinalStatus = FinalStatus.Succeeded ∧
    (asyncUnit false [] (newTask "a") (some "boom")).record.FinalStatus = FinalStatus.Failed :=
  ⟨(C2_lifecycle_final_status "a" false [] none).2.2.1 rfl,
   (C2_lifecycle_final_status "a" false [] (some "boom")).2.2.2 "boom" rfl⟩

/-- Claim C3: every task produced or persisted by Create,
MarkAsSucceeded and MarkAsFailedWithError satisfies the invariant that
a non-empty FinalStatus implies ActiveStatus Stopped, and every service
operation preserves the store-wide invariant — FetchState writes
nothing, and PersistState preserves it whenever the task it is given
satisfies the invariant. -/
theorem C3_status_invariant (fail : Bool) (s : Store) (id : String) (t : Task) (msg : String) :
    statusInv (newTask id) ∧
    statusInv (MarkAsSucceeded fail s t).record ∧
    statusInv (MarkAsFailedWithError fail s t msg).record ∧
    (storeInv s → storeInv (Create fail s id).store) ∧
    (storeInv s → storeInv (MarkAsSucceeded fail s t).store) ∧
    (storeInv s → storeInv (MarkAsFailedWithError fail s t msg).store) ∧
    (storeInv s → statusInv t → ∀ s1, PersistState fail s t = Except.ok s1 → storeInv s1) := by
  cases fail with
  | false =>
    refine ⟨?_, ?_, ?_, ?_, ?_, ?_, ?_⟩
    · intro h; exact absurd rfl h
    · intro _; rfl
    · intro _; rfl
    · intro hs p hp
      simp [Create, PersistState, storageSet] at hp
      rcases hp with hp | hp
      · subst hp; intro h; exact absurd rfl h
      · exact hs p hp
    · intro hs p hp
      simp [MarkAsSucceeded, PersistState, storageSet] at hp
      rcases hp with hp | hp
      · subst hp; intro _; rfl
      · exact hs p hp
    · intro hs p hp
      simp [MarkAsFailedWithError, PersistState, storageSet] at hp
      rcases hp with hp | hp
      · subst hp; intro _; rfl
      · exact hs p hp
    · intro hs ht s1 heq p hp
      simp [PersistState, storageSet] at heq
      subst heq
      rcases List.mem_cons.mp hp with hp | hp
      · subst hp; exact ht
      · exact hs p hp
  | true =>
    refine ⟨?_, ?_, ?_, ?_, ?_, ?_, ?_⟩
    · intro h; exact absurd rfl h
    · intro _; rfl
    · intro _; rfl
    · intro hs; exact hs
    · intro hs; exact hs
    · intro hs; exact hs
    · intro hs ht s1 heq
      simp [PersistState, storageSet] at heq

/-- Witness for C3 at concrete inputs: marking a freshly created task
as succeeded on an empty Storage keeps the store-wide invariant. -/
theorem C3_status_invariant_witness :
    storeInv (MarkAsSucceeded false [] (newTask "b")).store :=
  (C3_status_invariant false [] "a" (newTask "b") "m").2.2.2.2.1
    (fun p hp => absurd hp (List.not_mem_nil p))

/-- Counterexample to claim C7 as stated: the task produced by the
service-operation sequence MarkAsFailedWithError then MarkAsSucceeded
has FinalStatus Succeeded — not Failed — yet a populated Error field,
because MarkAsSucceeded leaves Error untouched. -/
theorem C7_error_field_counterexample :
    (MarkAsSucceeded false []
      (MarkAsFailedWithError false [] (newTask "a") "boom").record).record.FinalStatus =
      FinalStatus.Succeeded ∧
    (MarkAsSucceeded false []
      (MarkAsFailedWithError false [] (newTask "a") "boom").record).record.Error =
      "boom" := ⟨rfl, rfl⟩

/-- Claim C7 (amended): within the lifecycle the service itself drives,
Error is populated only when FinalStatus is Failed and is empty
otherwise — the created task and a task the spawned unit marked as
succeeded have empty Error, and a task it marked as failed carries the
action error message; MarkAsSucceeded itself leaves the Error field of
its input unchanged rather than clearing it, so a task it returns has
empty Error only when the input record had one. -/
theorem C7_error_field (id : String) (fail : Bool) (s : Store)
    (actionErr : Option String) (t : Task) :
    errorInv (newTask id) ∧
    errorInv (asyncUnit fail s (newTask id) actionErr).record ∧
    (∀ msg, actionErr = some msg →
      (asyncUnit fail s (newTask id) actionErr).record.Error = msg) ∧
    (MarkAsSucceeded fail s t).record.Error = t.Error := by
  refine ⟨fun _ => rfl, ?_, ?_, ?_⟩
  · cases actionErr with
    | none => cases fail <;> exact fun _ => rfl
    | some m => cases fail <;> exact fun h => absurd rfl h
  · intro msg h; subst h; cases fail <;> rfl
  · cases fail <;> rfl

/-- Witness for the amended C7 at concrete inputs: the record marked
failed by the spawned unit carries the action error message, and
marking a record as succeeded preserves its Error field. -/
theorem C7_error_field_witness :
    (asyncUnit false [] (newTask "a") (some "disk full")).record.Error = "disk full" ∧
    (MarkAsSucceeded false [] (newTask "b")).record.Error = "" :=
  ⟨(C7_error_field "a" false [] (some "disk full") (newTask "b")).2.2.1 "disk full" rfl,
   (C7_error_field "a" false [] (some "disk full") (newTask "b")).2.2.2⟩

/-- Claim C8: persisting a task via PersistState and then fetching its
ID via FetchState returns a task equal to the one persisted. -/
theorem C8_roundtrip (s : Store) (t : Task) (s1 : Store) :
    PersistState false s t = Except.ok s1 → FetchState s1 t.ID = Except.ok t := by
  intro h
  simp [PersistState, storageSet] at h
  subst h
  simp [FetchState, storageGet, List.lookup]

/-- Witness for C8 at a concrete task: persisting a fresh task into an
empty Storage and fetching its ID returns it. -/
theorem C8_roundtrip_witness :
    FetchState [("a", newTask "a")] (newTask "a").ID = Except.ok (newTask "a") :=
  C8_roundtrip [] (newTask "a") [("a", newTask "a")] rfl

/-- Claim C9: when the initial persistence write inside Create fails,
Create returns (nil, error) and leaves Storage unchanged, yet the
spawned unit still runs the action to completion and persists the
terminal transition under the generated ID — Create is not atomic. -/
theorem C9_create_not_atomic (s : Store) (id : String) (actionErr : Option String) :
    (Create true s id).ret = none ∧
    (Create true s id).err = some Err.StorageError ∧
    (Create true s id).store = s ∧
    HasFinalStatus (createThenAsync true false s id actionErr).2.record = true ∧
    storageGet (createThenAsync true false s id actionErr).2.store id =
      Except.ok (createThenAsync true false s id actionErr).2.record := by
  cases actionErr with
  | none =>
    refine ⟨rfl, rfl, rfl, rfl, ?_⟩
    simp [createThenAsync, Create, asyncUnit, MarkAsSucceeded, PersistState,
      storageSet, storageGet, newTask, List.lookup]
  | some m =>
    refine ⟨rfl, rfl, rfl, rfl, ?_⟩
    simp [createThenAsync, Create, asyncUnit, MarkAsFailedWithError, PersistState,
      storageSet, storageGet, newTask, List.lookup]

/-- Claim C10: when the Storage write inside a mark operation fails,
the operation returns (nil, error) and leaves Storage unchanged, but
the record has already been mutated to its terminal values and is not
rolled back; on success the returned task is that very mutated record,
not a record re-fetched from Storage. -/
theorem C10_mark_mutation (s : Store) (t : Task) (msg : String) :
    (MarkAsSucceeded true s t).ret = none ∧
    (MarkAsSucceeded true s t).err = some Err.StorageError ∧
    (MarkAsSucceeded true s t).store = s ∧
    (MarkAsSucceeded true s t).record =
      { t with ActiveStatus := ActiveStatus.Stopped, FinalStatus := FinalStatus.Succeeded } ∧
    (MarkAsFailedWithError true s t msg).ret = none ∧
    (MarkAsFailedWithError true s t msg).err = some Err.StorageError ∧
    (MarkAsFailedWithError true s t msg).store = s ∧
    (MarkAsFailedWithError true s t msg).record =
      { t with ActiveStatus := ActiveStatus.Stopped, Error := msg, FinalStatus := FinalStatus.Failed } ∧
    (MarkAsSucceeded false s t).ret = some (MarkAsSucceeded false s t).record ∧
    (MarkAsFailedWithError false s t msg).ret = some (MarkAsFailedWithError false s t msg).record :=
  ⟨rfl, rfl, rfl, rfl, rfl, rfl, rfl, rfl, rfl, rfl⟩

end Inago
